import Mathlib

/-!
Shallow embedding of the metadata-enrichment and franchise-hype pipeline of
the epic-games-savings-analysis repository (src/scraper.py, src/processor.py).

External I/O (HTTP requests, fuzzy matching, pandas date parsing, strftime
formatting) is modelled by explicit outcome values and oracle functions, so
that every branch of the Python control flow is represented; the branching
logic itself is translated line by line from the source.
-/

namespace EpicSavings

/-- Python falsiness for an optional string: `None` and `""` are falsy
(used for `a or b` chains in the source). -/
def strTruthy : Option String → Option String
  | none => none
  | some s => if s = "" then none else some s

/-- Python `a or b` on optional strings: returns `a` when truthy, else `b`
verbatim (even if `b` is itself falsy). -/
def pyOrStr (a b : Option String) : Option String :=
  match strTruthy a with
  | some s => some s
  | none => b

/-- The `original_release_date` cache field: `None`, the terminal sentinel
string `"Date Not Found"`, or a real date string. -/
inductive DateCell where
  | null
  | notFound
  | dateStr (s : String)
deriving DecidableEq, Repr

/-- `original_release_date in [None, "Date Not Found"]` (scraper.py line 326). -/
def DateCell.isMissing : DateCell → Bool
  | .null => true
  | .notFound => true
  | .dateStr _ => false

/-- The `aggregated_rating` cache field: `None`, the terminal sentinel
`"Score Not Found"`, or a numeric score. -/
inductive RatingCell where
  | null
  | notFound
  | val (r : ℚ)
deriving DecidableEq, Repr

/-- `aggregated_rating in [None, "Score Not Found"]` (scraper.py line 327). -/
def RatingCell.isMissing : RatingCell → Bool
  | .null => true
  | .notFound => true
  | .val _ => false

/-- One cache entry of `game_prices.json`, as initialised and mutated by
`get_game_metadata_with_cache` (scraper.py lines 279-287).  `next_sequel_name`
and `start_date` are `Option` because the initial dict lacks those keys and
the code reads them with `.get`. -/
structure GameEntry where
  price : Option ℚ
  publisher : String
  original_release_date : DateCell
  aggregated_rating : RatingCell
  next_sequel_date : Option String
  next_sequel_name : Option String
  is_strategic_hype : Bool
  start_date : Option String
deriving DecidableEq, Repr

/-- The fresh entry created on a cache miss (scraper.py lines 280-284). -/
def initEntry : GameEntry :=
  { price := none
    publisher := "Unknown Publisher"
    original_release_date := .null
    aggregated_rating := .null
    next_sequel_date := none
    next_sequel_name := none
    is_strategic_hype := false
    start_date := none }

/-- Outcome of the CheapShark price interaction (scraper.py lines 293-309):
`err` = exception raised by the search request; `empty` = falsy search result;
`found score detail` = search returned candidates, `score` is the fuzzy score
of the best match and `detail` the retail price from the follow-up details
request (`none` when that second request raises). -/
inductive PriceOutcome where
  | err
  | empty
  | found (score : ℕ) (detail : Option ℚ)
deriving DecidableEq, Repr

/-- The price-resolution block of `get_game_metadata_with_cache`
(scraper.py lines 290-309).  Returns the updated entry and the
`has_changed` contribution of the block. -/
def priceStep (po : PriceOutcome) (e : GameEntry) : GameEntry × Bool :=
  if e.price = none then
    match po with
    | .err => (e, false)
    | .empty => ({ e with price := some 0 }, true)
    | .found score detail =>
        if 85 ≤ score then
          match detail with
          | some p => ({ e with price := some p }, true)
          | none => (e, false)
        else ({ e with price := some 0 }, true)
  else (e, false)

/-- Outcome of the Steam storefront interaction inside
`get_publisher_from_steam` (scraper.py lines 209-236): `err` = exception
(timeout, malformed response) anywhere in the function; `noItems` = search
succeeded with a falsy item list; `found score detail` = a best fuzzy match
with `score`, where `detail` is the publishers list of the app-details
request when that request succeeds with `success = true`, and `none` when it
fails or is unsuccessful. -/
inductive SteamOutcome where
  | err
  | noItems
  | found (score : ℕ) (detail : Option (List String))
deriving DecidableEq, Repr

/-- `get_publisher_from_steam` (scraper.py lines 209-236). -/
def get_publisher_from_steam (so : SteamOutcome) : String :=
  match so with
  | .err => "Unknown Publisher"
  | .noItems => "Unknown Publisher"
  | .found score detail =>
      if 85 ≤ score then
        match detail with
        | some (p :: _) => p
        | some [] => "Unknown Publisher"
        | none => "Unknown Publisher"
      else "Unknown Publisher"

/-- The publisher-resolution block of `get_game_metadata_with_cache`
(scraper.py lines 312-317). -/
def publisherStep (so : SteamOutcome) (e : GameEntry) : GameEntry × Bool :=
  if e.publisher = "Unknown Publisher" ∨ e.publisher = "Publisher Not Found" then
    let pub := get_publisher_from_steam so
    ({ e with publisher := if pub ≠ "Unknown Publisher" then pub else "Publisher Not Found" },
     true)
  else (e, false)

/-- Outcome of the IGDB games query inside `fetch_metadata_from_igdb`
(scraper.py lines 54-82): `err` = exception; `empty` = falsy response list;
`found score ts rating` = best fuzzy match with `score`, whose record holds
epoch timestamp `ts` under `first_release_date` (`none` when the key is
absent) and `rating` under `aggregated_rating`. -/
inductive IgdbMetaOutcome where
  | err
  | empty
  | found (score : ℕ) (ts : Option ℤ) (rating : Option ℚ)
deriving DecidableEq, Repr

/-- `fetch_metadata_from_igdb` (scraper.py lines 45-82).  `fmt` stands for
`datetime.utcfromtimestamp(ts).strftime` with pattern `%Y-%m-%d`.  The guard
`if ts` is Python falsiness, so a timestamp of exactly `0` yields no date. -/
def fetch_metadata_from_igdb (fmt : ℤ → String) (token : Bool)
    (mo : IgdbMetaOutcome) : Option String × Option ℚ :=
  if token = false then (none, none)
  else
    match mo with
    | .err => (none, none)
    | .empty => (none, none)
    | .found score ts rating =>
        if 80 ≤ score then
          ((match ts with
            | some t => if t = 0 then none else some (fmt t)
            | none => none),
           rating)
        else (none, none)

/-- The basic-metadata block of `get_game_metadata_with_cache`
(scraper.py lines 326-341).  `rel_date or "Date Not Found"` and
`score or "Score Not Found"` use Python falsiness, so an empty date string
or a rating of exactly `0` collapse to the sentinel. -/
def metaStep (fmt : ℤ → String) (token : Bool) (mo : IgdbMetaOutcome)
    (e : GameEntry) : GameEntry × Bool :=
  let md := e.original_release_date.isMissing
  let ms := e.aggregated_rating.isMissing
  if (md || ms) && token then
    let r := fetch_metadata_from_igdb fmt token mo
    let e1 := if md then
        { e with original_release_date :=
            match strTruthy r.1 with
            | some s => .dateStr s
            | none => .notFound }
      else e
    let e2 := if ms then
        { e1 with aggregated_rating :=
            match r.2 with
            | some q => if q = 0 then .notFound else .val q
            | none => .notFound }
      else e1
    (e2, md || ms)
  else (e, false)

/-- A raw date value as delivered by a franchise source: Wikidata gives
ISO-date strings, IGDB gives integer epoch seconds. -/
inductive DateRaw where
  | str (s : String)
  | int (n : ℤ)
deriving DecidableEq, Repr

/-- Python falsiness for an optional raw date: `None`, `""` and `0` are
falsy. -/
def rawTruthy : Option DateRaw → Option DateRaw
  | none => none
  | some (.str s) => if s = "" then none else some (.str s)
  | some (.int n) => if n = 0 then none else some (.int n)

/-- One sibling entry of a franchise list.  Wikidata rows carry `name` and
`date` (scraper.py line 268); IGDB rows carry `name` and
`first_release_date`; `gameLabel` is read as a fallback for the name
(scraper.py line 404). -/
structure Candidate where
  name : Option String
  gameLabel : Option String
  date : Option DateRaw
  first_release_date : Option DateRaw
deriving DecidableEq, Repr

/-- `raw_g_date = g.get("date") or g.get("first_release_date")` followed by
the `if raw_g_date:` truthiness test (scraper.py lines 389-390). -/
def effRawDate (g : Candidate) : Option DateRaw :=
  match rawTruthy g.date with
  | some d => some d
  | none => rawTruthy g.first_release_date

/-- The per-candidate timestamp of the selection loop (scraper.py lines
386-395): a candidate without a (truthy) raw date keeps `g_ts = 0`; a string
date goes through `pd.to_datetime` (the oracle `parse`; `none` = exception,
which `continue`s past the candidate, dropping it); an integer date is an
epoch-seconds value (`pd.to_datetime(n, unit='s').timestamp() = n` for
in-range values). -/
def candTs (parse : String → Option ℤ) (g : Candidate) : Option ℤ :=
  match effRawDate g with
  | none => some 0
  | some (.int n) => some n
  | some (.str s) => parse s

/-- The `future` list (scraper.py lines 385-399): each candidate paired with
its normalized timestamp, keeping only timestamps strictly later than the
promotion timestamp `curTs`. -/
def selectFuture (parse : String → Option ℤ) (curTs : ℤ) (gs : List Candidate) :
    List (Candidate × ℤ) :=
  (gs.filterMap (fun g => (candTs parse g).map (fun t => (g, t)))).filter
    (fun p => curTs < p.2)

/-- `future.sort(key=lambda x: x[1]); future[0]` (scraper.py lines 401-403):
the first element of the stable ascending sort, i.e. the earliest timestamp,
first-listed among ties. -/
def pickEarliest (l : List (Candidate × ℤ)) : Option (Candidate × ℤ) :=
  match l with
  | [] => none
  | x :: xs => some (xs.foldl (fun b g => if g.2 < b.2 then g else b) x)

/-- The franchise-list processing block of `get_game_metadata_with_cache`
(scraper.py lines 378-428), for a truthy `franchise_list`.  The surrounding
`try` makes a failed parse of the promotion start date
(`pd.to_datetime(current_promotion_date, dayfirst=True)`, the oracle
`parse`) leave the entry untouched.  `fmt` is
`datetime.utcfromtimestamp(ts).strftime` with pattern `%Y-%m-%d`;
`lead_time_days = int((next_ts - cur_ts) / 86400)` truncates the positive
quotient. -/
def processFranchiseList (parse : String → Option ℤ) (fmt : ℤ → String)
    (e : GameEntry) (fl : List Candidate) : GameEntry × Bool :=
  match e.start_date.bind parse with
  | none => (e, false)
  | some curTs =>
      let future := selectFuture parse curTs fl
      match pickEarliest future with
      | some pr =>
          let lead := (pr.2 - curTs) / 86400
          ({ e with next_sequel_name := pyOrStr pr.1.name pr.1.gameLabel
                    next_sequel_date := some (fmt pr.2)
                    is_strategic_hype := decide (0 ≤ lead ∧ lead ≤ 90) },
           true)
      | none =>
          ({ e with next_sequel_name := some "No Future Sequel Found"
                    next_sequel_date := some "N/A"
                    is_strategic_hype := false },
           true)

/-- One entry of the manual override table `SHARED_UNIVERSES` (constants.py):
`{"name": ..., "date": ...}`. -/
structure ManualEntry where
  name : String
  date : String
deriving DecidableEq, Repr

/-- `fetch_sequel_metadata` (scraper.py lines 84-114) as seen by its caller:
without a token it returns `None`; with one, the outcome `ig` of the two
IGDB requests (`none` = exception, no result, or no collection id; otherwise
the sibling list). -/
def fetch_sequel_metadata (token : Bool) (ig : Option (List Candidate)) :
    Option (List Candidate) :=
  if token then ig else none

/-- The franchise/sequel block of `get_game_metadata_with_cache`
(scraper.py lines 353-437): run only when `next_sequel_date` is `None` and
the release date is resolved; Tier 1 is the manual table, Tier 2 the
Wikidata outcome `wd` (`none` = exception, otherwise the candidate list),
Tier 3 the IGDB fallback when Tier 2 is falsy; a truthy list is processed by
`processFranchiseList`; otherwise the `Standalone` fallback fires when
`next_sequel_name` is falsy. -/
def franchiseStep (manual : String → Option ManualEntry) (token : Bool)
    (parse : String → Option ℤ) (fmt : ℤ → String)
    (wd ig : Option (List Candidate)) (title : String) (e : GameEntry) :
    GameEntry × Bool :=
  if e.next_sequel_date = none ∧ e.original_release_date.isMissing = false then
    match manual title with
    | some m =>
        let e1 := { e with next_sequel_name := some m.name
                           next_sequel_date := some m.date
                           is_strategic_hype := true }
        if e1.next_sequel_name = none ∨ e1.next_sequel_name = some "" then
          ({ e1 with next_sequel_name := some "Standalone"
                     next_sequel_date := some "N/A"
                     is_strategic_hype := false },
           true)
        else (e1, true)
    | none =>
        let fl := if (wd = none ∨ wd = some []) ∧ token
          then fetch_sequel_metadata token ig else wd
        match fl with
        | some (c :: cs) => processFranchiseList parse fmt e (c :: cs)
        | _ =>
            if e.next_sequel_name = none ∨ e.next_sequel_name = some "" then
              ({ e with next_sequel_name := some "Standalone"
                        next_sequel_date := some "N/A"
                        is_strategic_hype := false },
               true)
            else (e, false)
  else (e, false)

/-- Result of one resolver call: the mutated cache entry, whether the price
block (rate-limit sleep + CheapShark requests) was entered, and whether
`save_to_cache` ran (`has_changed`). -/
structure ResolveResult where
  entry : GameEntry
  calledPrice : Bool
  saved : Bool
deriving Repr

/-- `get_game_metadata_with_cache` (scraper.py lines 273-442): takes the
cached entry for the title (`none` = cache miss), stamps the promotion start
date into it, then runs the four field-resolution blocks in order. -/
def get_game_metadata_with_cache (manual : String → Option ManualEntry)
    (token : Bool) (parse : String → Option ℤ) (fmt : ℤ → String)
    (po : PriceOutcome) (so : SteamOutcome) (mo : IgdbMetaOutcome)
    (wd ig : Option (List Candidate)) (title promo_start : String)
    (cached : Option GameEntry) : ResolveResult :=
  let e0 := { cached.getD initEntry with start_date := some promo_start }
  let r1 := priceStep po e0
  let r2 := publisherStep so r1.1
  let r3 := metaStep fmt token mo r2.1
  let r4 := franchiseStep manual token parse fmt wd ig title r3.1
  { entry := r4.1
    calledPrice := decide (e0.price = none)
    saved := r1.2 || r2.2 || r3.2 || r4.2 }

/-- `calculate_hype_delta` (processor.py lines 357-368): both date columns go
through `pd.to_datetime(..., errors='coerce')` (the oracle `pdParse`,
`none` = `NaT`); the day delta is the floor of the timestamp difference in
days (pandas `Timedelta.dt.days`), `none` when either side is `NaT`. -/
def calculate_hype_delta (pdParse : String → Option ℤ)
    (start_date next_sequel_date : Option String) : Option ℤ :=
  match start_date.bind pdParse, next_sequel_date.bind pdParse with
  | some s, some q => some (Int.fdiv (q - s) 86400)
  | _, _ => none

/-- `tag_hype_candidates` (processor.py lines 370-385), per row:
`is_strategic_hype = (delta >= 0) & (delta <= 90)`, with missing deltas
filled `False`. -/
def tag_hype_candidates (delta : Option ℤ) : Bool :=
  match delta with
  | some d => decide (0 ≤ d ∧ d ≤ 90)
  | none => false

/-- The copy-back of the rating into the DataFrame row (scraper.py lines
479-485): `if rating_val and rating_val != "Score Not Found"` keeps a float,
everything else (missing, sentinel, and the falsy rating `0`) becomes
`pd.NA`. -/
def copyBackRating : RatingCell → Option ℚ
  | .null => none
  | .notFound => none
  | .val q => if q = 0 then none else some q

/-! ### Helper lemmas -/

theorem priceStep_keeps (po : PriceOutcome) (e : GameEntry) :
    (priceStep po e).1.publisher = e.publisher ∧
    (priceStep po e).1.original_release_date = e.original_release_date ∧
    (priceStep po e).1.aggregated_rating = e.aggregated_rating ∧
    (priceStep po e).1.next_sequel_date = e.next_sequel_date ∧
    (priceStep po e).1.next_sequel_name = e.next_sequel_name ∧
    (priceStep po e).1.is_strategic_hype = e.is_strategic_hype ∧
    (priceStep po e).1.start_date = e.start_date := by
  unfold priceStep
  split
  · rcases po with _ | _ | ⟨score, detail⟩
    · simp
    · simp
    · dsimp only
      split
      · rcases detail with _ | p <;> simp
      · simp
  · simp

theorem priceStep_hit (po : PriceOutcome) (e : GameEntry) (p : ℚ)
    (h : e.price = some p) : priceStep po e = (e, false) := by
  unfold priceStep
  rw [h]
  simp

theorem publisherStep_keeps (so : SteamOutcome) (e : GameEntry) :
    (publisherStep so e).1.price = e.price ∧
    (publisherStep so e).1.original_release_date = e.original_release_date ∧
    (publisherStep so e).1.aggregated_rating = e.aggregated_rating ∧
    (publisherStep so e).1.next_sequel_date = e.next_sequel_date ∧
    (publisherStep so e).1.next_sequel_name = e.next_sequel_name ∧
    (publisherStep so e).1.is_strategic_hype = e.is_strategic_hype ∧
    (publisherStep so e).1.start_date = e.start_date := by
  unfold publisherStep
  split <;> simp

theorem metaStep_keeps (fmt : ℤ → String) (token : Bool) (mo : IgdbMetaOutcome)
    (e : GameEntry) :
    (metaStep fmt token mo e).1.price = e.price ∧
    (metaStep fmt token mo e).1.publisher = e.publisher ∧
    (metaStep fmt token mo e).1.next_sequel_date = e.next_sequel_date ∧
    (metaStep fmt token mo e).1.next_sequel_name = e.next_sequel_name ∧
    (metaStep fmt token mo e).1.is_strategic_hype = e.is_strategic_hype ∧
    (metaStep fmt token mo e).1.start_date = e.start_date := by
  unfold metaStep
  dsimp only
  split
  · split <;> split <;> simp
  · simp

theorem metaStep_keeps_real_date (fmt : ℤ → String) (token : Bool)
    (mo : IgdbMetaOutcome) (e : GameEntry) (s : String)
    (h : e.original_release_date = .dateStr s) :
    (metaStep fmt token mo e).1.original_release_date = .dateStr s := by
  unfold metaStep
  rw [h]
  simp only [DateCell.isMissing, Bool.false_or]
  split
  · dsimp only
    split <;> simp [h]
  · exact h

theorem processFranchiseList_keeps (parse : String → Option ℤ)
    (fmt : ℤ → String) (e : GameEntry) (fl : List Candidate) :
    (processFranchiseList parse fmt e fl).1.price = e.price ∧
    (processFranchiseList parse fmt e fl).1.publisher = e.publisher ∧
    (processFranchiseList parse fmt e fl).1.original_release_date = e.original_release_date ∧
    (processFranchiseList parse fmt e fl).1.aggregated_rating = e.aggregated_rating ∧
    (processFranchiseList parse fmt e fl).1.start_date = e.start_date := by
  unfold processFranchiseList
  rcases h : e.start_date.bind parse with _ | curTs
  · simp
  · dsimp only
    rcases h2 : pickEarliest (selectFuture parse curTs fl) with _ | pr <;> simp [h2]

theorem franchiseStep_keeps (manual : String → Option ManualEntry) (token : Bool)
    (parse : String → Option ℤ) (fmt : ℤ → String)
    (wd ig : Option (List Candidate)) (title : String) (e : GameEntry) :
    (franchiseStep manual token parse fmt wd ig title e).1.price = e.price ∧
    (franchiseStep manual token parse fmt wd ig title e).1.publisher = e.publisher ∧
    (franchiseStep manual token parse fmt wd ig title e).1.original_release_date = e.original_release_date ∧
    (franchiseStep manual token parse fmt wd ig title e).1.aggregated_rating = e.aggregated_rating ∧
    (franchiseStep manual token parse fmt wd ig title e).1.start_date = e.start_date := by
  unfold franchiseStep
  split
  · rcases hm : manual title with _ | m
    · dsimp only
      rcases hfl : (if (wd = none ∨ wd = some []) ∧ token = true
          then fetch_sequel_metadata token ig else wd) with _ | l
      · dsimp only
        split <;> simp
      · rcases l with _ | ⟨c, cs⟩
        · dsimp only
          split <;> simp
        · exact processFranchiseList_keeps parse fmt e (c :: cs)
    · dsimp only
      split <;> simp
  · simp

theorem foldlMin_mem (xs : List (Candidate × ℤ)) (a : Candidate × ℤ) :
    xs.foldl (fun b g => if g.2 < b.2 then g else b) a = a ∨
    xs.foldl (fun b g => if g.2 < b.2 then g else b) a ∈ xs := by
  induction xs generalizing a with
  | nil => left; rfl
  | cons x xs ih =>
      simp only [List.foldl_cons]
      rcases ih (if x.2 < a.2 then x else a) with h | h
      · rw [h]
        split
        · right; exact List.mem_cons_self _ _
        · left; rfl
      · right; exact List.mem_cons_of_mem _ h

theorem foldlMin_le (xs : List (Candidate × ℤ)) (a : Candidate × ℤ) :
    (xs.foldl (fun b g => if g.2 < b.2 then g else b) a).2 ≤ a.2 ∧
    ∀ q ∈ xs, (xs.foldl (fun b g => if g.2 < b.2 then g else b) a).2 ≤ q.2 := by
  induction xs generalizing a with
  | nil => exact ⟨le_refl _, by simp⟩
  | cons x xs ih =>
      simp only [List.foldl_cons]
      obtain ⟨h1, h2⟩ := ih (if x.2 < a.2 then x else a)
      refine ⟨le_trans h1 ?_, ?_⟩
      · split
        · exact le_of_lt ‹_›
        · exact le_refl _
      · intro q hq
        rcases List.mem_cons.mp hq with rfl | hq
        · refine le_trans h1 ?_
          split
          · exact le_refl _
          · exact le_of_not_lt ‹_›
        · exact h2 q hq

theorem pickEarliest_spec (l : List (Candidate × ℤ)) (p : Candidate × ℤ)
    (h : pickEarliest l = some p) : p ∈ l ∧ ∀ q ∈ l, p.2 ≤ q.2 := by
  rcases l with _ | ⟨x, xs⟩
  · exact absurd h (by simp [pickEarliest])
  · unfold pickEarliest at h
    have hp : xs.foldl (fun b g => if g.2 < b.2 then g else b) x = p :=
      Option.some.inj h
    constructor
    · rcases foldlMin_mem xs x with h2 | h2
      · rw [← hp, h2]; exact List.mem_cons_self _ _
      · rw [← hp]; exact List.mem_cons_of_mem _ h2
    · intro q hq
      obtain ⟨h1, h2⟩ := foldlMin_le xs x
      rcases List.mem_cons.mp hq with rfl | hq
      · rw [← hp]; exact h1
      · rw [← hp]; exact h2 q hq

theorem selectFuture_mem (parse : String → Option ℤ) (curTs : ℤ)
    (gs : List Candidate) (p : Candidate × ℤ) :
    p ∈ selectFuture parse curTs gs ↔
      p.1 ∈ gs ∧ candTs parse p.1 = some p.2 ∧ curTs < p.2 := by
  unfold selectFuture
  rw [List.mem_filter, List.mem_filterMap]
  constructor
  · rintro ⟨⟨g, hg, hmap⟩, hlt⟩
    rcases Option.map_eq_some'.mp hmap with ⟨t, hct, hpt⟩
    rcases p with ⟨pc, pt⟩
    cases hpt
    exact ⟨hg, hct, by simpa using hlt⟩
  · rintro ⟨hg, hct, hlt⟩
    refine ⟨⟨p.1, hg, ?_⟩, by simpa using hlt⟩
    rw [hct]
    rfl

theorem tag_window_iff (d : Option ℤ) :
    tag_hype_candidates d = true ↔ ∃ k, d = some k ∧ 0 ≤ k ∧ k ≤ 90 := by
  rcases d with _ | k <;> simp [tag_hype_candidates]

/-! ### Concrete data used by witnesses and counterexamples -/

/-- A concrete stand-in for the pandas date-parse oracle, mapping the few
date strings the witnesses use to their epoch timestamps. -/
def demoParse : String → Option ℤ := fun s =>
  if s = "2021-03-01" then some 1614556800
  else if s = "2021-05-01" then some 1619827200
  else if s = "2021-09-01" then some 1630454400
  else if s = "2030-01-01" then some 1893456000
  else none

/-- A concrete stand-in for `strftime('%Y-%m-%d')` on the timestamps the
witnesses use. -/
def demoFmt : ℤ → String := fun t =>
  if t = 1619827200 then "2021-05-01" else "1970-01-01"

/-! ### Claim theorems -/

/-- C2: the hype classifier computes `hype_delta_days` as the day difference
between the parsed `next_sequel_date` and `start_date`; `is_strategic_hype`
is true iff that delta exists and lies in `[0, 90]`; a missing or
unparseable (sentinel) sequel date gives a missing delta and a false flag. -/
theorem hype_classifier_window_iff (pdParse : String → Option ℤ)
    (start seq : Option String) :
    (∀ s q, start.bind pdParse = some s → seq.bind pdParse = some q →
      calculate_hype_delta pdParse start seq = some (Int.fdiv (q - s) 86400)) ∧
    (tag_hype_candidates (calculate_hype_delta pdParse start seq) = true ↔
      ∃ d, calculate_hype_delta pdParse start seq = some d ∧ 0 ≤ d ∧ d ≤ 90) ∧
    (seq.bind pdParse = none →
      calculate_hype_delta pdParse start seq = none ∧
      tag_hype_candidates (calculate_hype_delta pdParse start seq) = false) := by
  unfold calculate_hype_delta
  refine ⟨?_, ?_, ?_⟩
  · intro s q hs hq
    rw [hs, hq]
  · exact tag_window_iff _
  · intro h
    rw [h]
    rcases start.bind pdParse with _ | s <;> simp [tag_hype_candidates]

/-- C2 witness: concrete evaluation of the classifier on 2021-03-01 →
2021-05-01 (delta 61, inside the window). -/
theorem hype_classifier_window_iff_witness :
    calculate_hype_delta demoParse (some "2021-03-01") (some "2021-05-01") = some 61 ∧
    ((some "2021-03-01" : Option String).bind demoParse = some 1614556800 →
      (some "2021-05-01" : Option String).bind demoParse = some 1619827200 →
      calculate_hype_delta demoParse (some "2021-03-01") (some "2021-05-01") =
        some (Int.fdiv (1619827200 - 1614556800) 86400)) :=
  ⟨by decide, fun h1 h2 =>
    (hype_classifier_window_iff demoParse (some "2021-03-01") (some "2021-05-01")).1
      1614556800 1619827200 h1 h2⟩

/-- C6: among sibling entries, each is normalized to a timestamp (ISO string
via the parse oracle, integer epoch directly); the survivors of the filter
are exactly those strictly later than the promotion timestamp; the earliest
survivor is selected as the next sequel; with no survivor the entry is
marked `"No Future Sequel Found"` with `is_strategic_hype = false`. -/
theorem franchise_selection_earliest_future (parse : String → Option ℤ)
    (fmt : ℤ → String) (e : GameEntry) (fl : List Candidate) (curTs : ℤ)
    (hts : e.start_date.bind parse = some curTs) :
    (∀ p ∈ selectFuture parse curTs fl,
        p.1 ∈ fl ∧ candTs parse p.1 = some p.2 ∧ curTs < p.2) ∧
    (∀ g ∈ fl, ∀ t, candTs parse g = some t → curTs < t →
        (g, t) ∈ selectFuture parse curTs fl) ∧
    (∀ pr, pickEarliest (selectFuture parse curTs fl) = some pr →
        pr ∈ selectFuture parse curTs fl ∧
        (∀ q ∈ selectFuture parse curTs fl, pr.2 ≤ q.2) ∧
        (processFranchiseList parse fmt e fl).1.next_sequel_name =
          pyOrStr pr.1.name pr.1.gameLabel ∧
        (processFranchiseList parse fmt e fl).1.next_sequel_date = some (fmt pr.2)) ∧
    (selectFuture parse curTs fl = [] →
        (processFranchiseList parse fmt e fl).1.next_sequel_name =
          some "No Future Sequel Found" ∧
        (processFranchiseList parse fmt e fl).1.next_sequel_date = some "N/A" ∧
        (processFranchiseList parse fmt e fl).1.is_strategic_hype = false) := by
  refine ⟨?_, ?_, ?_, ?_⟩
  · intro p hp
    exact (selectFuture_mem parse curTs fl p).mp hp
  · intro g hg t hct hlt
    exact (selectFuture_mem parse curTs fl (g, t)).mpr ⟨hg, hct, hlt⟩
  · intro pr hpr
    obtain ⟨hmem, hmin⟩ := pickEarliest_spec _ pr hpr
    have hproc : processFranchiseList parse fmt e fl =
        ({ e with next_sequel_name := pyOrStr pr.1.name pr.1.gameLabel
                  next_sequel_date := some (fmt pr.2)
                  is_strategic_hype :=
                    decide (0 ≤ (pr.2 - curTs) / 86400 ∧ (pr.2 - curTs) / 86400 ≤ 90) },
         true) := by
      unfold processFranchiseList
      rw [hts]
      dsimp only
      rw [hpr]
    exact ⟨hmem, hmin, by rw [hproc], by rw [hproc]⟩
  · intro hempty
    have hproc : processFranchiseList parse fmt e fl =
        ({ e with next_sequel_name := some "No Future Sequel Found"
                  next_sequel_date := some "N/A"
                  is_strategic_hype := false }, true) := by
      unfold processFranchiseList
      rw [hts]
      dsimp only
      rw [hempty]
      rfl
    rw [hproc]
    exact ⟨rfl, rfl, rfl⟩

/-- A sibling released after the demo promotion start. -/
def candAlpha2 : Candidate :=
  { name := some "Alpha 2", gameLabel := none
    date := some (.str "2021-05-01"), first_release_date := none }

/-- A sibling released at exactly the promotion start (not strictly later,
so it must be discarded). -/
def candAlpha0 : Candidate :=
  { name := some "Alpha 0", gameLabel := none
    date := some (.str "2021-03-01"), first_release_date := none }

/-- A cache entry whose promotion start is 2021-03-01, used to exercise the
franchise selection. -/
def entC6 : GameEntry :=
  { price := some 5, publisher := "PubCo"
    original_release_date := .dateStr "2019-01-01"
    aggregated_rating := .val 70
    next_sequel_date := none, next_sequel_name := none
    is_strategic_hype := false, start_date := some "2021-03-01" }

/-- C6 witness: concrete selection over one past and one future sibling. -/
theorem franchise_selection_earliest_future_witness :
    entC6.start_date.bind demoParse = some 1614556800 ∧
    (∀ p ∈ selectFuture demoParse 1614556800 [candAlpha0, candAlpha2],
        p.1 ∈ [candAlpha0, candAlpha2] ∧ candTs demoParse p.1 = some p.2 ∧
        1614556800 < p.2) ∧
    (∀ g ∈ [candAlpha0, candAlpha2], ∀ t, candTs demoParse g = some t →
        1614556800 < t →
        (g, t) ∈ selectFuture demoParse 1614556800 [candAlpha0, candAlpha2]) ∧
    (∀ pr, pickEarliest (selectFuture demoParse 1614556800 [candAlpha0, candAlpha2]) = some pr →
        pr ∈ selectFuture demoParse 1614556800 [candAlpha0, candAlpha2] ∧
        (∀ q ∈ selectFuture demoParse 1614556800 [candAlpha0, candAlpha2], pr.2 ≤ q.2) ∧
        (processFranchiseList demoParse demoFmt entC6 [candAlpha0, candAlpha2]).1.next_sequel_name =
          pyOrStr pr.1.name pr.1.gameLabel ∧
        (processFranchiseList demoParse demoFmt entC6 [candAlpha0, candAlpha2]).1.next_sequel_date =
          some (demoFmt pr.2)) ∧
    (selectFuture demoParse 1614556800 [candAlpha0, candAlpha2] = [] →
        (processFranchiseList demoParse demoFmt entC6 [candAlpha0, candAlpha2]).1.next_sequel_name =
          some "No Future Sequel Found" ∧
        (processFranchiseList demoParse demoFmt entC6 [candAlpha0, candAlpha2]).1.next_sequel_date =
          some "N/A" ∧
        (processFranchiseList demoParse demoFmt entC6 [candAlpha0, candAlpha2]).1.is_strategic_hype =
          false) :=
  ⟨by decide,
   franchise_selection_earliest_future demoParse demoFmt entC6 [candAlpha0, candAlpha2]
     1614556800 (by decide)⟩

theorem fetch_meta_below80 (fmt : ℤ → String) (score : ℕ) (ts : Option ℤ)
    (rating : Option ℚ) (h : score < 80) :
    fetch_metadata_from_igdb fmt true (.found score ts rating) = (none, none) := by
  unfold fetch_metadata_from_igdb
  rw [if_neg (by simp)]
  dsimp only
  rw [if_neg (Nat.not_le_of_lt h)]

theorem steam_below85 (score : ℕ) (detail : Option (List String)) (h : score < 85) :
    get_publisher_from_steam (.found score detail) = "Unknown Publisher" := by
  unfold get_publisher_from_steam
  dsimp only
  rw [if_neg (Nat.not_le_of_lt h)]

theorem metaStep_sentinel_date (fmt : ℤ → String) (mo : IgdbMetaOutcome)
    (e : GameEntry)
    (hf : fetch_metadata_from_igdb fmt true mo = (none, none))
    (hmd : e.original_release_date.isMissing = true) :
    (metaStep fmt true mo e).1.original_release_date = .notFound := by
  unfold metaStep
  dsimp only
  rw [hmd, hf]
  simp only [Bool.true_or, Bool.true_and, if_true, if_pos rfl]
  split <;> simp [strTruthy]

theorem metaStep_sentinel_rating (fmt : ℤ → String) (mo : IgdbMetaOutcome)
    (e : GameEntry)
    (hf : fetch_metadata_from_igdb fmt true mo = (none, none))
    (hms : e.aggregated_rating.isMissing = true) :
    (metaStep fmt true mo e).1.aggregated_rating = .notFound := by
  unfold metaStep
  dsimp only
  rw [hms, hf]
  simp

/-- C7: a candidate scoring below the adapter's threshold (80 for the IGDB
metadata search, 85 for the Steam and CheapShark searches) never populates
the looked-up field with a real value; when the field was missing it
receives its failure sentinel (`"Date Not Found"`, `"Score Not Found"`,
`"Publisher Not Found"`, or the terminal price `0.0`). -/
theorem below_threshold_yields_sentinel :
    (∀ (fmt : ℤ → String) (score : ℕ) (ts : Option ℤ) (rating : Option ℚ),
        score < 80 →
        fetch_metadata_from_igdb fmt true (.found score ts rating) = (none, none)) ∧
    (∀ (fmt : ℤ → String) (e : GameEntry) (score : ℕ) (ts : Option ℤ) (rating : Option ℚ),
        score < 80 → e.original_release_date.isMissing = true →
        (metaStep fmt true (.found score ts rating) e).1.original_release_date = .notFound) ∧
    (∀ (fmt : ℤ → String) (e : GameEntry) (score : ℕ) (ts : Option ℤ) (rating : Option ℚ),
        score < 80 → e.aggregated_rating.isMissing = true →
        (metaStep fmt true (.found score ts rating) e).1.aggregated_rating = .notFound) ∧
    (∀ (score : ℕ) (detail : Option (List String)), score < 85 →
        get_publisher_from_steam (.found score detail) = "Unknown Publisher") ∧
    (∀ (e : GameEntry) (score : ℕ) (detail : Option (List String)), score < 85 →
        (e.publisher = "Unknown Publisher" ∨ e.publisher = "Publisher Not Found") →
        (publisherStep (.found score detail) e).1.publisher = "Publisher Not Found") ∧
    (∀ (e : GameEntry) (score : ℕ) (detail : Option ℚ), score < 85 → e.price = none →
        (priceStep (.found score detail) e).1.price = some 0) := by
  refine ⟨fetch_meta_below80, ?_, ?_, steam_below85, ?_, ?_⟩
  · intro fmt e score ts rating h hmd
    exact metaStep_sentinel_date fmt _ e (fetch_meta_below80 fmt score ts rating h) hmd
  · intro fmt e score ts rating h hms
    exact metaStep_sentinel_rating fmt _ e (fetch_meta_below80 fmt score ts rating h) hms
  · intro e score detail h hpub
    unfold publisherStep
    rw [if_pos hpub, steam_below85 score detail h]
    simp
  · intro e score detail h hp
    unfold priceStep
    rw [if_pos hp]
    dsimp only
    rw [if_neg (Nat.not_le_of_lt h)]

/-- C7 witness: a fresh entry with a score-79 IGDB candidate and score-84
Steam and CheapShark candidates receives only sentinels. -/
theorem below_threshold_yields_sentinel_witness :
    ((79 : ℕ) < 80 ∧ initEntry.original_release_date.isMissing = true ∧
     (84 : ℕ) < 85 ∧ initEntry.publisher = "Unknown Publisher" ∧ initEntry.price = none) ∧
    (metaStep demoFmt true (.found 79 (some 1619827200) (some 88)) initEntry).1.original_release_date =
      .notFound ∧
    (publisherStep (.found 84 (some ["Real Publisher"])) initEntry).1.publisher =
      "Publisher Not Found" ∧
    (priceStep (.found 84 (some 30)) initEntry).1.price = some 0 :=
  ⟨⟨by decide, by decide, by decide, by decide, by decide⟩,
   below_threshold_yields_sentinel.2.1 demoFmt initEntry 79 (some 1619827200) (some 88)
     (by decide) (by decide),
   below_threshold_yields_sentinel.2.2.2.2.1 initEntry 84 (some ["Real Publisher"])
     (by decide) (Or.inl (by decide)),
   below_threshold_yields_sentinel.2.2.2.2.2 initEntry 84 (some 30) (by decide) (by decide)⟩

/-- C8: once a cache entry holds a non-`None` price (including `0.0`), a
resolver run neither enters the price-lookup block nor changes the stored
price. -/
theorem price_set_short_circuits (manual : String → Option ManualEntry)
    (token : Bool) (parse : String → Option ℤ) (fmt : ℤ → String)
    (po : PriceOutcome) (so : SteamOutcome) (mo : IgdbMetaOutcome)
    (wd ig : Option (List Candidate)) (title promo : String)
    (e : GameEntry) (p : ℚ) (hp : e.price = some p) :
    (get_game_metadata_with_cache manual token parse fmt po so mo wd ig
        title promo (some e)).entry.price = some p ∧
    (get_game_metadata_with_cache manual token parse fmt po so mo wd ig
        title promo (some e)).calledPrice = false := by
  unfold get_game_metadata_with_cache
  simp only [Option.getD_some]
  have h0 : ({ e with start_date := some promo } : GameEntry).price = some p := hp
  rw [priceStep_hit po _ p h0]
  constructor
  · rw [(franchiseStep_keeps manual token parse fmt wd ig title _).1,
       (metaStep_keeps fmt token mo _).1, (publisherStep_keeps so _).1, h0]
  · simp [hp]

/-- C8 witness: an entry whose price is already `0.0` is not re-fetched. -/
theorem price_set_short_circuits_witness :
    entC6.price = some 5 ∧
    ((get_game_metadata_with_cache (fun _ => none) true demoParse demoFmt
        .err .err .err none none "Alpha" "2021-03-01" (some entC6)).entry.price = some 5 ∧
     (get_game_metadata_with_cache (fun _ => none) true demoParse demoFmt
        .err .err .err none none "Alpha" "2021-03-01" (some entC6)).calledPrice = false) :=
  ⟨by decide,
   price_set_short_circuits (fun _ => none) true demoParse demoFmt .err .err .err
     none none "Alpha" "2021-03-01" entC6 5 (by decide)⟩

/-- C10: an IGDB response carrying the valid rating `0` (and a release
timestamp of `0`) is coerced by the `or`-sentinel idiom: the cache stores
`"Score Not Found"` and `"Date Not Found"` instead of the real values, and
the copy-back turns the rating into missing data. -/
theorem zero_rating_coerced_to_sentinel (fmt : ℤ → String) (e : GameEntry)
    (score : ℕ) (hscore : 80 ≤ score)
    (hms : e.aggregated_rating.isMissing = true)
    (hmd : e.original_release_date.isMissing = true) :
    (metaStep fmt true (.found score (some 0) (some 0)) e).1.aggregated_rating = .notFound ∧
    copyBackRating (metaStep fmt true (.found score (some 0) (some 0)) e).1.aggregated_rating = none ∧
    (metaStep fmt true (.found score (some 0) (some 0)) e).1.original_release_date = .notFound := by
  have hf : fetch_metadata_from_igdb fmt true (.found score (some 0) (some 0)) =
      (none, some 0) := by
    unfold fetch_metadata_from_igdb
    rw [if_neg (by simp)]
    dsimp only
    rw [if_pos hscore]
    simp
  unfold metaStep
  dsimp only
  rw [hmd, hms, hf]
  simp [copyBackRating, strTruthy]

/-- C10 witness: a fresh entry, rating `0` and timestamp `0` from a score-95
match. -/
theorem zero_rating_coerced_to_sentinel_witness :
    ((80 : ℕ) ≤ 95 ∧ initEntry.aggregated_rating.isMissing = true ∧
     initEntry.original_release_date.isMissing = true) ∧
    ((metaStep demoFmt true (.found 95 (some 0) (some 0)) initEntry).1.aggregated_rating = .notFound ∧
     copyBackRating (metaStep demoFmt true (.found 95 (some 0) (some 0)) initEntry).1.aggregated_rating = none ∧
     (metaStep demoFmt true (.found 95 (some 0) (some 0)) initEntry).1.original_release_date = .notFound) :=
  ⟨⟨by decide, by decide, by decide⟩,
   zero_rating_coerced_to_sentinel demoFmt initEntry 95 (by decide) (by decide) (by decide)⟩

theorem franchiseStep_standalone (manual : String → Option ManualEntry)
    (token : Bool) (parse : String → Option ℤ) (fmt : ℤ → String)
    (wd ig : Option (List Candidate)) (title : String) (e : GameEntry) (s : String)
    (hm : manual title = none)
    (hwd : wd = none ∨ wd = some [])
    (hig : ig = none ∨ ig = some [])
    (hseq : e.next_sequel_date = none)
    (hname : e.next_sequel_name = none ∨ e.next_sequel_name = some "")
    (hdate : e.original_release_date = .dateStr s) :
    (franchiseStep manual token parse fmt wd ig title e).1.next_sequel_name = some "Standalone" ∧
    (franchiseStep manual token parse fmt wd ig title e).1.next_sequel_date = some "N/A" ∧
    (franchiseStep manual token parse fmt wd ig title e).1.is_strategic_hype = false := by
  unfold franchiseStep
  rw [if_pos ⟨hseq, by rw [hdate]; rfl⟩, hm]
  dsimp only
  rcases hwd with rfl | rfl <;> rcases hig with rfl | rfl <;> cases token <;>
    rcases hname with h | h <;>
      simp [fetch_sequel_metadata, h]

/-- C9: with no manual override, every franchise tier empty and no prior
sequel result cached, a record with a resolved release date is marked
`next_sequel_name = "Standalone"` with `is_strategic_hype = false`. -/
theorem standalone_when_all_tiers_empty (manual : String → Option ManualEntry)
    (token : Bool) (parse : String → Option ℤ) (fmt : ℤ → String)
    (po : PriceOutcome) (so : SteamOutcome) (mo : IgdbMetaOutcome)
    (wd ig : Option (List Candidate)) (title promo : String)
    (e : GameEntry) (s : String)
    (hm : manual title = none)
    (hwd : wd = none ∨ wd = some [])
    (hig : ig = none ∨ ig = some [])
    (hseq : e.next_sequel_date = none)
    (hname : e.next_sequel_name = none ∨ e.next_sequel_name = some "")
    (hdate : e.original_release_date = .dateStr s) :
    (get_game_metadata_with_cache manual token parse fmt po so mo wd ig
        title promo (some e)).entry.next_sequel_name = some "Standalone" ∧
    (get_game_metadata_with_cache manual token parse fmt po so mo wd ig
        title promo (some e)).entry.next_sequel_date = some "N/A" ∧
    (get_game_metadata_with_cache manual token parse fmt po so mo wd ig
        title promo (some e)).entry.is_strategic_hype = false := by
  unfold get_game_metadata_with_cache
  simp only [Option.getD_some]
  set e0 : GameEntry := { e with start_date := some promo } with he0
  set e1 : GameEntry := (priceStep po e0).1 with he1
  set e2 : GameEntry := (publisherStep so e1).1 with he2
  set e3 : GameEntry := (metaStep fmt token mo e2).1 with he3
  have hd3 : e3.original_release_date = .dateStr s := by
    rw [he3]
    apply metaStep_keeps_real_date
    rw [he2, (publisherStep_keeps so e1).2.1, he1, (priceStep_keeps po e0).2.1, he0]
    exact hdate
  have hs3 : e3.next_sequel_date = none := by
    rw [he3, (metaStep_keeps fmt token mo e2).2.2.1, he2,
      (publisherStep_keeps so e1).2.2.2.1, he1, (priceStep_keeps po e0).2.2.2.1, he0]
    exact hseq
  have hn3 : e3.next_sequel_name = none ∨ e3.next_sequel_name = some "" := by
    rw [he3, (metaStep_keeps fmt token mo e2).2.2.2.1, he2,
      (publisherStep_keeps so e1).2.2.2.2.1, he1, (priceStep_keeps po e0).2.2.2.2.1, he0]
    exact hname
  exact franchiseStep_standalone manual token parse fmt wd ig title e3 s
    hm hwd hig hs3 hn3 hd3

/-- C9 witness: concrete entry with a real release date, empty tiers, no
override. -/
theorem standalone_when_all_tiers_empty_witness :
    (entC6.next_sequel_date = none ∧
     (entC6.next_sequel_name = none ∨ entC6.next_sequel_name = some "") ∧
     entC6.original_release_date = .dateStr "2019-01-01") ∧
    ((get_game_metadata_with_cache (fun _ => none) true demoParse demoFmt
        .err .err .err none none "Alpha" "2021-03-01" (some entC6)).entry.next_sequel_name =
          some "Standalone" ∧
     (get_game_metadata_with_cache (fun _ => none) true demoParse demoFmt
        .err .err .err none none "Alpha" "2021-03-01" (some entC6)).entry.next_sequel_date =
          some "N/A" ∧
     (get_game_metadata_with_cache (fun _ => none) true demoParse demoFmt
        .err .err .err none none "Alpha" "2021-03-01" (some entC6)).entry.is_strategic_hype =
          false) :=
  ⟨⟨by decide, Or.inl (by decide), by decide⟩,
   standalone_when_all_tiers_empty (fun _ => none) true demoParse demoFmt
     .err .err .err none none "Alpha" "2021-03-01" entC6 "2019-01-01"
     rfl (Or.inl rfl) (Or.inl rfl) (by decide) (Or.inl (by decide)) (by decide)⟩

theorem franchiseStep_tier1 (manual : String → Option ManualEntry)
    (token : Bool) (parse : String → Option ℤ) (fmt : ℤ → String)
    (wd ig : Option (List Candidate)) (title : String) (e : GameEntry)
    (m : ManualEntry)
    (hm : manual title = some m) (hname : m.name ≠ "")
    (hseq : e.next_sequel_date = none)
    (hdate : e.original_release_date.isMissing = false) :
    (franchiseStep manual token parse fmt wd ig title e).1.is_strategic_hype = true ∧
    (franchiseStep manual token parse fmt wd ig title e).1.next_sequel_name = some m.name ∧
    (franchiseStep manual token parse fmt wd ig title e).1.next_sequel_date = some m.date := by
  unfold franchiseStep
  rw [if_pos ⟨hseq, hdate⟩, hm]
  dsimp only
  rw [if_neg (by simp [hname])]
  exact ⟨rfl, rfl, rfl⟩

/-- The manual override table used by the Tier-1 counterexample: one curated
tie-in whose sequel date lies far outside the 0-90-day window. -/
def manualAlpha : String → Option ManualEntry := fun t =>
  if t = "Alpha" then some { name := "Alpha 2030", date := "2030-01-01" } else none

/-- A fully enriched entry (price, publisher, date, rating all resolved)
with no sequel information yet. -/
def entTier1 : GameEntry :=
  { price := some 10, publisher := "PubCo"
    original_release_date := .dateStr "2019-01-01", aggregated_rating := .val 80
    next_sequel_date := none, next_sequel_name := none
    is_strategic_hype := false, start_date := none }

/-- C1 counterexample: the resolver's Tier-1 branch sets
`is_strategic_hype = true`, but the batch reclassification
(`calculate_hype_delta` + `tag_hype_candidates`) recomputes the flag from
the persisted dates alone and turns it off (delta 3228 days), so the claim
that the flag "remains true after the batch reclassification step" is false
for this record. -/
theorem tier1_override_lost_in_batch :
    (get_game_metadata_with_cache manualAlpha true demoParse demoFmt .err .err .err
        none none "Alpha" "2021-03-01" (some entTier1)).entry.is_strategic_hype = true ∧
    (get_game_metadata_with_cache manualAlpha true demoParse demoFmt .err .err .err
        none none "Alpha" "2021-03-01" (some entTier1)).entry.next_sequel_date =
      some "2030-01-01" ∧
    tag_hype_candidates (calculate_hype_delta demoParse
      (get_game_metadata_with_cache manualAlpha true demoParse demoFmt .err .err .err
        none none "Alpha" "2021-03-01" (some entTier1)).entry.start_date
      (get_game_metadata_with_cache manualAlpha true demoParse demoFmt .err .err .err
        none none "Alpha" "2021-03-01" (some entTier1)).entry.next_sequel_date) = false := by
  decide

/-- C1 (amended): a Tier-1 record is marked `is_strategic_hype = true`
unconditionally by the resolver, but the batch reclassification recomputes
the flag solely from the 0-90-day window on the recomputed delta, so after
that step the flag is true only when the delta lies in the window. -/
theorem tier1_sets_hype_then_batch_recomputes (manual : String → Option ManualEntry)
    (token : Bool) (parse : String → Option ℤ) (fmt : ℤ → String)
    (po : PriceOutcome) (so : SteamOutcome) (mo : IgdbMetaOutcome)
    (wd ig : Option (List Candidate)) (title promo : String)
    (e : GameEntry) (m : ManualEntry) (s : String)
    (hm : manual title = some m) (hname : m.name ≠ "")
    (hseq : e.next_sequel_date = none)
    (hdate : e.original_release_date = .dateStr s) :
    ((get_game_metadata_with_cache manual token parse fmt po so mo wd ig
        title promo (some e)).entry.is_strategic_hype = true ∧
     (get_game_metadata_with_cache manual token parse fmt po so mo wd ig
        title promo (some e)).entry.next_sequel_name = some m.name ∧
     (get_game_metadata_with_cache manual token parse fmt po so mo wd ig
        title promo (some e)).entry.next_sequel_date = some m.date) ∧
    (∀ d : Option ℤ, tag_hype_candidates d = true ↔ ∃ k, d = some k ∧ 0 ≤ k ∧ k ≤ 90) := by
  refine ⟨?_, fun d => tag_window_iff d⟩
  unfold get_game_metadata_with_cache
  simp only [Option.getD_some]
  set e0 : GameEntry := { e with start_date := some promo } with he0
  set e1 : GameEntry := (priceStep po e0).1 with he1
  set e2 : GameEntry := (publisherStep so e1).1 with he2
  set e3 : GameEntry := (metaStep fmt token mo e2).1 with he3
  have hd3 : e3.original_release_date = .dateStr s := by
    rw [he3]
    apply metaStep_keeps_real_date
    rw [he2, (publisherStep_keeps so e1).2.1, he1, (priceStep_keeps po e0).2.1, he0]
    exact hdate
  have hs3 : e3.next_sequel_date = none := by
    rw [he3, (metaStep_keeps fmt token mo e2).2.2.1, he2,
      (publisherStep_keeps so e1).2.2.2.1, he1, (priceStep_keeps po e0).2.2.2.1, he0]
    exact hseq
  exact franchiseStep_tier1 manual token parse fmt wd ig title e3 m hm hname hs3
    (by rw [hd3]; rfl)

/-- C1 witness: the amended theorem applied to the concrete Tier-1 record of
the counterexample scenario. -/
theorem tier1_sets_hype_then_batch_recomputes_witness :
    (manualAlpha "Alpha" = some { name := "Alpha 2030", date := "2030-01-01" } ∧
     entTier1.next_sequel_date = none ∧
     entTier1.original_release_date = .dateStr "2019-01-01") ∧
    (((get_game_metadata_with_cache manualAlpha true demoParse demoFmt .err .err .err
        none none "Alpha" "2021-03-01" (some entTier1)).entry.is_strategic_hype = true ∧
      (get_game_metadata_with_cache manualAlpha true demoParse demoFmt .err .err .err
        none none "Alpha" "2021-03-01" (some entTier1)).entry.next_sequel_name =
          some "Alpha 2030" ∧
      (get_game_metadata_with_cache manualAlpha true demoParse demoFmt .err .err .err
        none none "Alpha" "2021-03-01" (some entTier1)).entry.next_sequel_date =
          some "2030-01-01") ∧
     (∀ d : Option ℤ, tag_hype_candidates d = true ↔ ∃ k, d = some k ∧ 0 ≤ k ∧ k ≤ 90)) :=
  ⟨⟨by decide, by decide, by decide⟩,
   tier1_sets_hype_then_batch_recomputes manualAlpha true demoParse demoFmt
     .err .err .err none none "Alpha" "2021-03-01" entTier1
     { name := "Alpha 2030", date := "2030-01-01" } "2019-01-01"
     (by decide) (by decide) (by decide) (by decide)⟩

/-- An entry whose price lookup has not yet succeeded, with every other
field resolved. -/
def entC3 : GameEntry :=
  { price := none, publisher := "PubCo"
    original_release_date := .dateStr "2019-01-01", aggregated_rating := .val 70
    next_sequel_date := some "N/A", next_sequel_name := some "Standalone"
    is_strategic_hype := false, start_date := none }

/-- C3 counterexample: a network error during the price lookup leaves the
price in its pre-call `None` state, not the terminal `0.0` the claim
asserts for all three failure modes. -/
theorem price_network_error_leaves_none :
    (get_game_metadata_with_cache (fun _ => none) true demoParse demoFmt .err .err .err
        none none "Alpha" "2021-03-01" (some entC3)).entry.price = none ∧
    ¬((get_game_metadata_with_cache (fun _ => none) true demoParse demoFmt .err .err .err
        none none "Alpha" "2021-03-01" (some entC3)).entry.price = some 0) := by
  decide

/-- C3 (amended): an empty search result or a below-threshold fuzzy match
sets the terminal price `0.0`; a network error leaves the price in its
pre-call state (so it is retried next run); and once the price is any
non-`None` value the block never changes it again. -/
theorem price_failure_semantics (e : GameEntry) (hp : e.price = none) :
    (priceStep .empty e).1.price = some 0 ∧
    (∀ (score : ℕ) (detail : Option ℚ), score < 85 →
        (priceStep (.found score detail) e).1.price = some 0) ∧
    priceStep .err e = (e, false) ∧
    (∀ (po : PriceOutcome) (e2 : GameEntry) (p : ℚ), e2.price = some p →
        priceStep po e2 = (e2, false)) := by
  refine ⟨?_, ?_, ?_, fun po e2 p h => priceStep_hit po e2 p h⟩
  · unfold priceStep
    rw [if_pos hp]
  · intro score detail h
    unfold priceStep
    rw [if_pos hp]
    dsimp only
    rw [if_neg (Nat.not_le_of_lt h)]
  · unfold priceStep
    rw [if_pos hp]

/-- C3 witness: the amended price semantics at a fresh entry. -/
theorem price_failure_semantics_witness :
    initEntry.price = none ∧
    ((priceStep .empty initEntry).1.price = some 0 ∧
     (∀ (score : ℕ) (detail : Option ℚ), score < 85 →
        (priceStep (.found score detail) initEntry).1.price = some 0) ∧
     priceStep .err initEntry = (initEntry, false) ∧
     (∀ (po : PriceOutcome) (e2 : GameEntry) (p : ℚ), e2.price = some p →
        priceStep po e2 = (e2, false))) :=
  ⟨by decide, price_failure_semantics initEntry (by decide)⟩

/-- An entry whose publisher lookup has not yet been attempted, with every
other field resolved. -/
def entC4 : GameEntry :=
  { price := some 3, publisher := "Unknown Publisher"
    original_release_date := .dateStr "2019-01-01", aggregated_rating := .val 70
    next_sequel_date := some "N/A", next_sequel_name := some "Standalone"
    is_strategic_hype := false, start_date := none }

/-- C4 counterexample: a transient Steam failure (exception inside
`get_publisher_from_steam`) makes the resolver write the
`"Publisher Not Found"` sentinel, so the publisher field is not left in its
pre-call state as the claim asserts for every field. -/
theorem transient_failure_writes_publisher_sentinel :
    entC4.publisher = "Unknown Publisher" ∧
    (get_game_metadata_with_cache (fun _ => none) true demoParse demoFmt .err .err .err
        none none "Alpha" "2021-03-01" (some entC4)).entry.publisher =
      "Publisher Not Found" ∧
    ¬((get_game_metadata_with_cache (fun _ => none) true demoParse demoFmt .err .err .err
        none none "Alpha" "2021-03-01" (some entC4)).entry.publisher = entC4.publisher) := by
  decide

/-- C4 (amended): on a transient external failure the price field is left in
its pre-call state with no sentinel; the publisher, release-date and rating
fields are written with their not-found sentinels even on a transient
failure, but each remains eligible for retry on the next run because the
resolver's own missing checks treat those sentinels as absent. -/
theorem transient_failure_field_state :
    (∀ e : GameEntry, e.price = none → priceStep .err e = (e, false)) ∧
    (∀ e : GameEntry,
        (e.publisher = "Unknown Publisher" ∨ e.publisher = "Publisher Not Found") →
        (publisherStep .err e).1.publisher = "Publisher Not Found" ∧
        ((publisherStep .err e).1.publisher = "Unknown Publisher" ∨
         (publisherStep .err e).1.publisher = "Publisher Not Found")) ∧
    (∀ (fmt : ℤ → String) (e : GameEntry), e.original_release_date.isMissing = true →
        (metaStep fmt true .err e).1.original_release_date = .notFound ∧
        (metaStep fmt true .err e).1.original_release_date.isMissing = true) ∧
    (∀ (fmt : ℤ → String) (e : GameEntry), e.aggregated_rating.isMissing = true →
        (metaStep fmt true .err e).1.aggregated_rating = .notFound ∧
        (metaStep fmt true .err e).1.aggregated_rating.isMissing = true) := by
  have hf : ∀ fmt : ℤ → String, fetch_metadata_from_igdb fmt true .err = (none, none) := by
    intro fmt
    unfold fetch_metadata_from_igdb
    rw [if_neg (by simp)]
  refine ⟨?_, ?_, ?_, ?_⟩
  · intro e hp
    unfold priceStep
    rw [if_pos hp]
  · intro e hpub
    have h1 : (publisherStep .err e).1.publisher = "Publisher Not Found" := by
      unfold publisherStep
      rw [if_pos hpub]
      simp [get_publisher_from_steam]
    exact ⟨h1, Or.inr h1⟩
  · intro fmt e h
    have h1 := metaStep_sentinel_date fmt .err e (hf fmt) h
    exact ⟨h1, by rw [h1]; rfl⟩
  · intro fmt e h
    have h1 := metaStep_sentinel_rating fmt .err e (hf fmt) h
    exact ⟨h1, by rw [h1]; rfl⟩

/-- C4 witness: the amended transient-failure semantics at a fresh entry
(price `None`, publisher not yet attempted, date and rating missing). -/
theorem transient_failure_field_state_witness :
    (initEntry.price = none ∧ initEntry.publisher = "Unknown Publisher" ∧
     initEntry.original_release_date.isMissing = true ∧
     initEntry.aggregated_rating.isMissing = true) ∧
    priceStep .err initEntry = (initEntry, false) ∧
    ((publisherStep .err initEntry).1.publisher = "Publisher Not Found" ∧
     ((publisherStep .err initEntry).1.publisher = "Unknown Publisher" ∨
      (publisherStep .err initEntry).1.publisher = "Publisher Not Found")) ∧
    ((metaStep demoFmt true .err initEntry).1.original_release_date = .notFound ∧
     (metaStep demoFmt true .err initEntry).1.original_release_date.isMissing = true) ∧
    ((metaStep demoFmt true .err initEntry).1.aggregated_rating = .notFound ∧
     (metaStep demoFmt true .err initEntry).1.aggregated_rating.isMissing = true) :=
  ⟨⟨by decide, by decide, by decide, by decide⟩,
   transient_failure_field_state.1 initEntry (by decide),
   transient_failure_field_state.2.1 initEntry (Or.inl (by decide)),
   transient_failure_field_state.2.2.1 demoFmt initEntry (by decide),
   transient_failure_field_state.2.2.2 demoFmt initEntry (by decide)⟩

/-- The Wikidata outcome for the shared-cache scenario: a single sibling
released 2021-05-01. -/
def wdAlpha : Option (List Candidate) := some [candAlpha2]

/-- The cache entry for title Alpha before its first processing. -/
def entC5 : GameEntry :=
  { price := some 5, publisher := "PubCo"
    original_release_date := .dateStr "2019-01-01", aggregated_rating := .val 70
    next_sequel_date := none, next_sequel_name := none
    is_strategic_hype := false, start_date := none }

/-- First processing of title Alpha, promotion start 2021-03-01. -/
def runC5a : ResolveResult :=
  get_game_metadata_with_cache (fun _ => none) true demoParse demoFmt .err .err .err
    wdAlpha none "Alpha" "2021-03-01" (some entC5)

/-- Second processing of the shared entry, promotion start 2021-09-01. -/
def runC5b : ResolveResult :=
  get_game_metadata_with_cache (fun _ => none) true demoParse demoFmt .err .err .err
    wdAlpha none "Alpha" "2021-09-01" (some runC5a.entry)

/-- C5 counterexample: after the second occurrence is processed, the shared
entry's franchise fields still carry the first occurrence's result (sequel
2021-05-01, lead 61 days, hype true); recomputing the delta from the second
start date would give -123 days, so the fields do not reflect the second
occurrence's lead time as the claim asserts. -/
theorem second_occurrence_keeps_first_franchise_fields :
    runC5a.entry.next_sequel_date = some "2021-05-01" ∧
    runC5a.entry.is_strategic_hype = true ∧
    runC5b.entry.start_date = some "2021-09-01" ∧
    runC5b.entry.next_sequel_date = some "2021-05-01" ∧
    runC5b.entry.is_strategic_hype = true ∧
    calculate_hype_delta demoParse runC5b.entry.start_date runC5b.entry.next_sequel_date =
      some (-123) := by
  decide

/-- C5 (amended): every processing overwrites the shared entry's
`start_date`, but when the entry already holds a non-`None`
`next_sequel_date` the franchise block is skipped entirely, so the franchise
fields keep the values computed from the earlier occurrence's start date. -/
theorem shared_cache_start_date_overwrite (manual : String → Option ManualEntry)
    (token : Bool) (parse : String → Option ℤ) (fmt : ℤ → String)
    (po : PriceOutcome) (so : SteamOutcome) (mo : IgdbMetaOutcome)
    (wd ig : Option (List Candidate)) (title promo : String)
    (e : GameEntry) (d : String) (hseq : e.next_sequel_date = some d) :
    (get_game_metadata_with_cache manual token parse fmt po so mo wd ig
        title promo (some e)).entry.start_date = some promo ∧
    (get_game_metadata_with_cache manual token parse fmt po so mo wd ig
        title promo (some e)).entry.next_sequel_date = some d ∧
    (get_game_metadata_with_cache manual token parse fmt po so mo wd ig
        title promo (some e)).entry.is_strategic_hype = e.is_strategic_hype ∧
    (get_game_metadata_with_cache manual token parse fmt po so mo wd ig
        title promo (some e)).entry.next_sequel_name = e.next_sequel_name := by
  unfold get_game_metadata_with_cache
  simp only [Option.getD_some]
  set e0 : GameEntry := { e with start_date := some promo } with he0
  set e1 : GameEntry := (priceStep po e0).1 with he1
  set e2 : GameEntry := (publisherStep so e1).1 with he2
  set e3 : GameEntry := (metaStep fmt token mo e2).1 with he3
  have hs3 : e3.next_sequel_date = some d := by
    rw [he3, (metaStep_keeps fmt token mo e2).2.2.1, he2,
      (publisherStep_keeps so e1).2.2.2.1, he1, (priceStep_keeps po e0).2.2.2.1, he0]
    exact hseq
  have hF : franchiseStep manual token parse fmt wd ig title e3 = (e3, false) := by
    unfold franchiseStep
    have hneg : ¬(e3.next_sequel_date = none ∧ e3.original_release_date.isMissing = false) := by
      rintro ⟨h1, h2⟩
      rw [hs3] at h1
      exact Option.noConfusion h1
    rw [if_neg hneg]
  rw [hF]
  refine ⟨?_, hs3, ?_, ?_⟩
  · rw [he3, (metaStep_keeps fmt token mo e2).2.2.2.2.2, he2,
      (publisherStep_keeps so e1).2.2.2.2.2.2, he1,
      (priceStep_keeps po e0).2.2.2.2.2.2, he0]
  · rw [he3, (metaStep_keeps fmt token mo e2).2.2.2.2.1, he2,
      (publisherStep_keeps so e1).2.2.2.2.2.1, he1,
      (priceStep_keeps po e0).2.2.2.2.2.1, he0]
  · rw [he3, (metaStep_keeps fmt token mo e2).2.2.2.1, he2,
      (publisherStep_keeps so e1).2.2.2.2.1, he1,
      (priceStep_keeps po e0).2.2.2.2.1, he0]

/-- C5 witness: the amended behavior at the concrete second occurrence of
the shared-cache scenario. -/
theorem shared_cache_start_date_overwrite_witness :
    runC5a.entry.next_sequel_date = some "2021-05-01" ∧
    ((get_game_metadata_with_cache (fun _ => none) true demoParse demoFmt .err .err .err
        wdAlpha none "Alpha" "2021-09-01" (some runC5a.entry)).entry.start_date =
      some "2021-09-01" ∧
     (get_game_metadata_with_cache (fun _ => none) true demoParse demoFmt .err .err .err
        wdAlpha none "Alpha" "2021-09-01" (some runC5a.entry)).entry.next_sequel_date =
      some "2021-05-01" ∧
     (get_game_metadata_with_cache (fun _ => none) true demoParse demoFmt .err .err .err
        wdAlpha none "Alpha" "2021-09-01" (some runC5a.entry)).entry.is_strategic_hype =
      runC5a.entry.is_strategic_hype ∧
     (get_game_metadata_with_cache (fun _ => none) true demoParse demoFmt .err .err .err
        wdAlpha none "Alpha" "2021-09-01" (some runC5a.entry)).entry.next_sequel_name =
      runC5a.entry.next_sequel_name) :=
  ⟨by decide,
   shared_cache_start_date_overwrite (fun _ => none) true demoParse demoFmt
     .err .err .err wdAlpha none "Alpha" "2021-09-01" runC5a.entry "2021-05-01"
     (by decide)⟩

end EpicSavings
